import Mathlib

/-!
Verification development for the amp-story-ads-preview repository.

Documents are JavaScript strings, embedded as `List Char`. The widget source
(src/unnamed/part_001) patches story and ad document strings with
`String.replace`, extracts CTA metadata with a regular expression, and
sequences iframe work with promise chains; the build script (src/bin/build.js)
bundles one entry module and optionally minifies.

JavaScript string semantics embedded here:
- `s.replace(pat, repl)` with a string pattern replaces the first occurrence
  only, and applies ECMAScript replacement-string substitution (GetSubstitution):
  a doubled dollar is a literal dollar, dollar-ampersand the matched text,
  dollar-backquote the text before the match, dollar-quote the text after it,
  and dollar-digits a capture group when the group number is in range.
- `s.replace(re, repl)` with a non-global regex replaces the leftmost match.
- When the pattern does not occur, the string is returned unchanged (no error).
-/

namespace AmpPreview

set_option maxRecDepth 16384

/-- Characters accepted by the JavaScript regex whitespace class (backslash-s). -/
def jsWhitespace (c : Char) : Bool :=
  c == ' ' || c == '\t' || c == '\n' || c == '\r' ||
  c == Char.ofNat 11 || c == Char.ofNat 12 ||
  c == Char.ofNat 0xa0 || c == Char.ofNat 0x1680 ||
  (0x2000 ≤ c.toNat && c.toNat ≤ 0x200a) ||
  c == Char.ofNat 0x2028 || c == Char.ofNat 0x2029 ||
  c == Char.ofNat 0x202f || c == Char.ofNat 0x205f ||
  c == Char.ofNat 0x3000 || c == Char.ofNat 0xfeff

/-- Index of the first occurrence of `pat` in a string (JavaScript indexOf). -/
def firstOcc (pat : List Char) : List Char → Option Nat
  | [] => if pat = [] then some 0 else none
  | c :: rest =>
    if pat.isPrefixOf (c :: rest) then some 0
    else (firstOcc pat rest).map (· + 1)

/-- ECMAScript GetSubstitution: expansion of dollar patterns in a replacement
string, given the matched text, the text before and after the match, and the
capture groups. -/
def expandDollarF (m b a : List Char) (g : List (List Char)) : Nat → List Char → List Char
  | _, [] => []
  | 0, l => l
  | fuel + 1, c :: rest =>
    if c ≠ '$' then c :: expandDollarF m b a g fuel rest
    else
      match rest with
      | [] => ['$']
      | c2 :: r =>
        if c2 = '$' then '$' :: expandDollarF m b a g fuel r
        else if c2 = '&' then m ++ expandDollarF m b a g fuel r
        else if c2 = Char.ofNat 96 then b ++ expandDollarF m b a g fuel r
        else if c2 = Char.ofNat 39 then a ++ expandDollarF m b a g fuel r
        else if c2.isDigit then
          match r with
          | d2 :: r2 =>
            if d2.isDigit ∧ 1 ≤ (c2.toNat - 48) * 10 + (d2.toNat - 48) ∧
                (c2.toNat - 48) * 10 + (d2.toNat - 48) ≤ g.length then
              g.getD ((c2.toNat - 48) * 10 + (d2.toNat - 48) - 1) [] ++
                expandDollarF m b a g fuel r2
            else if 1 ≤ c2.toNat - 48 ∧ c2.toNat - 48 ≤ g.length then
              g.getD (c2.toNat - 48 - 1) [] ++ expandDollarF m b a g fuel r
            else '$' :: c2 :: expandDollarF m b a g fuel r
          | [] =>
            if 1 ≤ c2.toNat - 48 ∧ c2.toNat - 48 ≤ g.length then
              g.getD (c2.toNat - 48 - 1) []
            else ['$', c2]
        else '$' :: c2 :: expandDollarF m b a g fuel r

/-- Entry point for the substitution expansion: the fuel argument, one unit per
processed character, is initialised with the replacement length, which always
suffices since every step consumes at least one character. -/
def expandDollar (m b a : List Char) (g : List (List Char)) (repl : List Char) : List Char :=
  expandDollarF m b a g repl.length repl

/-- JavaScript String.replace with a string pattern: replaces the first
occurrence, applying replacement-string substitution; the input is returned
unchanged when the pattern does not occur. -/
def strReplaceJS (s pat repl : List Char) : List Char :=
  match firstOcc pat s with
  | none => s
  | some i =>
    s.take i ++ expandDollar pat (s.take i) (s.drop (i + pat.length)) [] repl ++
      s.drop (i + pat.length)

/-- Matcher for the source regex detecting a body tag, namely
lt (body [^>]*) gt, at the head of the list: on success returns the capture
group (the word body plus the following non-gt run) and the tail after the
closing gt. -/
def bodyTagMatchAt : List Char → Option (List Char × List Char)
  | '<' :: 'b' :: 'o' :: 'd' :: 'y' :: rest =>
    let run := rest.takeWhile (fun c => c ≠ '>')
    match rest.drop run.length with
    | '>' :: tail => some ('b' :: 'o' :: 'd' :: 'y' :: run, tail)
    | _ => none
  | _ => none

/-- Position of the leftmost match of a matcher, with the match data. -/
def findMatchPos {β : Type} (f : List Char → Option β) : List Char → Option (Nat × β)
  | [] => (f []).map (fun b => (0, b))
  | c :: rest =>
    match f (c :: rest) with
    | some b => some (0, b)
    | none => (findMatchPos f rest).map (fun p => (p.1 + 1, p.2))

/-- Source part_001 lines 74-75: `docStr.replace` of the body-tag regex with
the replacement lt dollar-one space amp-story-visible gt. -/
def setBodyAmpStoryVisible (docStr : List Char) : List Char :=
  match findMatchPos bodyTagMatchAt docStr with
  | none => docStr
  | some (i, gt) =>
    docStr.take i ++
      expandDollar ('<' :: gt.1 ++ ['>']) (docStr.take i) gt.2 [gt.1]
        "<$1 amp-story-visible>".data ++ gt.2

/-- Source part_001 lines 80-81: `docStr.replace` of the literal string
lt head gt by itself followed by the head content. -/
def addScriptToHead (docStr headContent : List Char) : List Char :=
  strReplaceJS docStr "<head>".data ("<head>".data ++ headContent)

/-- Modelled from the spec: the minified HTTPS-circumvention inline script
injected into the story head (the modules story-patch and minify-inline-js are
not under src). The claims treat its text as an opaque head insertion. -/
def httpsCircumventionPatch : List Char :=
  "<script>httpsCircumvention</script>".data

/-- Modelled from the spec: the navigation patch script with a pageId
placeholder (module story-patch is not under src). -/
def navigationPatch : List Char :=
  "<script>navigateToPage($pageId$)</script>".data

/-- Modelled from the spec: the story CSS patch (module story-patch is not
under src). -/
def cssPatch : List Char := "<style>storyCss</style>".data

/-- Source part_001 lines 77-78. -/
def insertHttpsCircumventionPatch (docStr : List Char) : List Char :=
  addScriptToHead docStr httpsCircumventionPatch

/-- Source part_001 lines 83-84: the navigation patch with its pageId
placeholder replaced, added to the head. -/
def storyNavigationPatch (docStr pageId : List Char) : List Char :=
  addScriptToHead docStr (strReplaceJS navigationPatch "$pageId$".data pageId)

/-- Source part_001 line 86. -/
def storyCssPatch (docStr : List Char) : List Char := addScriptToHead docStr cssPatch

/-- Source part_001 lines 96-97: ad document patch for REPL support. -/
def patch (docStr : List Char) : List Char :=
  setBodyAmpStoryVisible (insertHttpsCircumventionPatch docStr)

/-- Source part_001 lines 99-100 (pageId passed explicitly; the source default
is page-1). -/
def patchOuter (str pageId : List Char) : List Char :=
  storyNavigationPatch (storyCssPatch str) pageId

/-- Source part_001 lines 33-40: the space-joined iframe sandbox attribute
list. -/
def defaultIframeSandbox : List Char :=
  (String.intercalate " "
    ["allow-scripts", "allow-forms", "allow-same-origin", "allow-popups",
     "allow-popups-to-escape-sandbox", "allow-top-navigation"]).data

/-- The placeholder token replaced in the story template (part_001 line 148). -/
def adSandboxToken : List Char := "\x7b\x7b adSandbox \x7d\x7d".data

/-- Source part_001 lines 147-150: the constructor computes the stored story
document by replacing the sandbox placeholder token in the data-template
string with the fixed sandbox attribute list. -/
def mkStoryDoc (template : List Char) : List Char :=
  strReplaceJS template adSandboxToken defaultIframeSandbox

theorem expandDollarF_of_not_mem_dollar (m b a : List Char) (g : List (List Char)) :
    ∀ (fuel : Nat) (repl : List Char), repl.length ≤ fuel → '$' ∉ repl →
      expandDollarF m b a g fuel repl = repl := by
  intro fuel
  induction fuel with
  | zero =>
    intro repl hl _
    cases repl with
    | nil => rfl
    | cons c rest => simp at hl
  | succ n ih =>
    intro repl hl hd
    cases repl with
    | nil => rfl
    | cons c rest =>
      have hc : c ≠ '$' := fun hc => hd (hc ▸ List.mem_cons_self c rest)
      have hr : '$' ∉ rest := fun hr => hd (List.mem_cons_of_mem c hr)
      have hlen : rest.length ≤ n := by
        simpa using Nat.le_of_succ_le_succ (by simpa using hl)
      simp only [expandDollarF, if_pos hc, ih rest hlen hr]

theorem expandDollar_of_not_mem_dollar (m b a : List Char) (g : List (List Char)) :
    ∀ repl : List Char, '$' ∉ repl → expandDollar m b a g repl = repl :=
  fun repl h => expandDollarF_of_not_mem_dollar m b a g repl.length repl le_rfl h

/-- Regular expression syntax, sufficient for the source pattern metaCtaRe:
case-insensitive literals, single-character classes, sequencing, alternation,
and greedy star/option over a character class. -/
inductive RE : Type where
  | lit : List Char → RE
  | cls : (Char → Bool) → RE
  | seq : RE → RE → RE
  | alt : RE → RE → RE
  | starCls : (Char → Bool) → RE
  | optCls : (Char → Bool) → RE

/-- Case-insensitive prefix test: pattern characters are given in lowercase, as
in the source regex with the i flag. -/
def isPrefixCI : List Char → List Char → Bool
  | [], _ => true
  | _ :: _, [] => false
  | p :: ps, c :: cs => (Char.toLower c == p) && isPrefixCI ps cs

/-- Remainders of a greedy class star: the suffixes left after consuming some
prefix of the maximal run of class characters, longest consumption first, which
is the order a backtracking engine tries them. -/
def greedyDrops (p : Char → Bool) (cs : List Char) : List (List Char) :=
  let run := (cs.takeWhile p).length
  (List.range (run + 1)).map (fun k => cs.drop (run - k))

/-- Backtracking matcher: all suffixes reachable by matching the expression at
the front of the input, in the priority order of a JavaScript backtracking
engine (greedy quantifiers, left alternative first). -/
def reMatches : RE → List Char → List (List Char)
  | .lit p, cs => if isPrefixCI p cs then [cs.drop p.length] else []
  | .cls p, cs =>
    match cs with
    | [] => []
    | c :: rest => if p c then [rest] else []
  | .seq a b, cs => (reMatches a cs).flatMap (reMatches b)
  | .alt a b, cs => reMatches a cs ++ reMatches b cs
  | .starCls p, cs => greedyDrops p cs
  | .optCls p, cs =>
    match cs with
    | [] => [[]]
    | c :: rest => if p c then [rest, c :: rest] else [c :: rest]

/-- Single or double quote, the class written as a bracket of the two quote
characters in the source regex. -/
def isQuote (c : Char) : Bool := c == '"' || c == Char.ofNat 39

/-- Any character other than gt, the negated class of the source regex. -/
def nonGt (c : Char) : Bool := c != '>'

/-- Source part_001 line 31: the regex (with flags g and i) matching meta tags
whose name attribute is amp-cta-type or amp-cta-url, namely
lt meta backslash-s-plus [^>]* name= [quote]? amp-cta- (type|url) [quote]? [^>]* gt
where [quote] is a single or double quote. -/
def metaCtaRe : RE :=
  .seq (.lit "<meta".data)
  (.seq (.cls jsWhitespace) (.seq (.starCls jsWhitespace)
  (.seq (.starCls nonGt)
  (.seq (.lit "name=".data)
  (.seq (.optCls isQuote)
  (.seq (.lit "amp-cta-".data)
  (.seq (.alt (.lit "type".data) (.lit "url".data))
  (.seq (.optCls isQuote)
  (.seq (.starCls nonGt) (.lit ">".data))))))))))

/-- Length of the match chosen at the head of the input, if any: the first
remainder in backtracking priority order. -/
def metaMatchLenAt (cs : List Char) : Option Nat :=
  (reMatches metaCtaRe cs).head?.map (fun rem => cs.length - rem.length)

/-- Scan for all matches as JavaScript String.match with a global regex: at
each position take the leftmost match, then continue after it (advancing at
least one character, as the engine does via lastIndex). The fuel argument, one
unit per examined position, is initialised with the string length, which always
suffices since every step consumes at least one character. -/
def metaCtaScan : Nat → List Char → List (List Char)
  | 0, _ => []
  | _, [] => []
  | fuel + 1, c :: rest =>
    match metaMatchLenAt (c :: rest) with
    | none => metaCtaScan fuel rest
    | some len =>
      (c :: rest).take len :: metaCtaScan fuel ((c :: rest).drop (max len 1))

/-- Source part_001 line 122: `docStr.match(metaCtaRe)`, as the list of matched
substrings (empty when the JavaScript call returns null). -/
def metaCtaMatches (docStr : List Char) : List (List Char) :=
  metaCtaScan docStr.length docStr

/-- Source part_001 line 28. -/
def defaultCtaType : List Char := "LEARN_MORE".data

/-- Source part_001 line 29. -/
def defaultCtaUrl : List Char := "https://amp.dev".data

/-- A meta element as observed through getAttribute in the setMetaCtaLink
loop: the name and content attributes, absent attributes read as null. -/
structure MetaTag : Type where
  name : Option (List Char)
  content : Option (List Char)
deriving DecidableEq

/-- Modelled from the spec: the fixed allow-list CTA_TYPES mapping known CTA
type keys to their display labels (module cta-types is not under src; the spec
describes a fixed allow-list of known types, with LEARN_MORE the default). -/
def CTA_TYPES : List (List Char × List Char) :=
  [("LEARN_MORE".data, "Learn More".data),
   ("EXPLORE".data, "Explore".data),
   ("SHOP".data, "Shop".data),
   ("READ".data, "Read".data),
   ("INSTALL".data, "Install".data)]

/-- JavaScript string coercion of a nullable string, as performed by
setAttribute and template literals: null becomes the string null. -/
def jsStringOf : Option (List Char) → List Char
  | none => "null".data
  | some s => s

/-- Property lookup CTA_TYPES[type] with a nullable key: the key is coerced to
a string, and absent properties read as undefined (`none`). Modelled from the
spec together with the assert helper (module lib/assert is not under src):
assert returns the looked-up label or raises on a missing one. -/
def ctaLookup (t : Option (List Char)) : Option (List Char) :=
  (CTA_TYPES.find? (fun p => p.1 = jsStringOf t)).map (fun p => p.2)

/-- The rendered CTA link as mutated by setMetaCtaLink: its href attribute
(null before ever being set) and its text content. -/
structure CtaLinkState : Type where
  href : Option (List Char)
  textContent : List Char
deriving DecidableEq

/-- The loop body of setMetaCtaLink (part_001 lines 128-137): for each meta,
read the name and content attributes and overwrite the pending type and url on
a name match, later metas overriding earlier ones. -/
def ctaStep (tu : Option (List Char) × Option (List Char)) (meta : MetaTag) :
    Option (List Char) × Option (List Char) :=
  (if meta.name = some "amp-cta-type".data then meta.content else tu.1,
   if meta.name = some "amp-cta-url".data then meta.content else tu.2)

/-- Source part_001 lines 119-141, with the browser HTML parsing step
(innerHTML and querySelectorAll on a detached div) abstracted as the `parse`
argument. Returns the final link state together with the raised message, if
any: the href is set first, then the text content is set to the asserted
allow-list label, raising Unknown CTA type when the lookup fails. -/
def setMetaCtaLink (parse : List Char → List MetaTag) (docStr : List Char)
    (ctaLink : CtaLinkState) : CtaLinkState × Option (List Char) :=
  let ms := metaCtaMatches docStr
  let tu :=
    if 0 < ms.length then
      (parse (List.intercalate "\n".data ms)).foldl ctaStep
        (some defaultCtaType, some defaultCtaUrl)
    else (some defaultCtaType, some defaultCtaUrl)
  let link1 : CtaLinkState := { ctaLink with href := some (jsStringOf tu.2) }
  match ctaLookup tu.1 with
  | some label => ({ link1 with textContent := label }, none)
  | none => (link1, some ("Unknown CTA type ".data ++ jsStringOf tu.1))

/-- Specification-level reading of the resolved CTA type: the content
attribute of the last matched meta tag named amp-cta-type, or the default when
no meta tag matches the regex or none of the parsed metas carries that name. -/
def resolvedCtaType (parse : List Char → List MetaTag) (docStr : List Char) :
    Option (List Char) :=
  let ms := metaCtaMatches docStr
  if ms.isEmpty then some defaultCtaType
  else
    match (parse (List.intercalate "\n".data ms)).reverse.find?
        (fun meta => meta.name = some "amp-cta-type".data) with
    | some meta => meta.content
    | none => some defaultCtaType

/-- Specification-level reading of the resolved CTA url, symmetrical to
`resolvedCtaType`. -/
def resolvedCtaUrl (parse : List Char → List MetaTag) (docStr : List Char) :
    Option (List Char) :=
  let ms := metaCtaMatches docStr
  if ms.isEmpty then some defaultCtaUrl
  else
    match (parse (List.intercalate "\n".data ms)).reverse.find?
        (fun meta => meta.name = some "amp-cta-url".data) with
    | some meta => meta.content
    | none => some defaultCtaUrl

/-- Lowercased copy of a list of characters, as HTML parsing lowercases
attribute names. -/
def lowerAll (s : List Char) : List Char := s.map Char.toLower

/-- Modelled from the spec: attribute scanning of the browser HTML parser used
through innerHTML (part_001 lines 124-127); reads name=value pairs with double
quoted, single quoted or unquoted values, until the closing gt. The fuel
argument, one unit per attribute, is initialised by the caller with the input
length, which always suffices since every step consumes at least one
character. -/
def parseAttrsF : Nat → List Char → List (List Char × List Char)
  | 0, _ => []
  | _, [] => []
  | fuel + 1, s =>
    let s1 := s.dropWhile (fun c => jsWhitespace c || c == '/')
    match s1 with
    | [] => []
    | c :: _ =>
      if c = '>' then []
      else
        let nm := s1.takeWhile
          (fun c => !(jsWhitespace c) && c ≠ '=' && c ≠ '>' && c ≠ '/')
        if nm.isEmpty then parseAttrsF fuel (s1.drop 1)
        else
          let rest := (s1.drop nm.length).dropWhile jsWhitespace
          match rest with
          | '=' :: r0 =>
            let r := r0.dropWhile jsWhitespace
            match r with
            | '"' :: v =>
              (lowerAll nm, v.takeWhile (fun c => c ≠ '"')) ::
                parseAttrsF fuel ((v.dropWhile (fun c => c ≠ '"')).drop 1)
            | q :: v =>
              if q = Char.ofNat 39 then
                (lowerAll nm, v.takeWhile (fun c => c ≠ Char.ofNat 39)) ::
                  parseAttrsF fuel ((v.dropWhile (fun c => c ≠ Char.ofNat 39)).drop 1)
              else
                let uv := (q :: v).takeWhile (fun c => !(jsWhitespace c) && c ≠ '>')
                (lowerAll nm, uv) :: parseAttrsF fuel ((q :: v).drop uv.length)
            | [] => [(lowerAll nm, [])]
          | _ => (lowerAll nm, []) :: parseAttrsF fuel rest

/-- Modelled from the spec: scan of meta elements by the browser parser, with
getAttribute reading the first attribute of a given (lowercased) name, or null
when absent. -/
def scanMetasF : Nat → List Char → List MetaTag
  | 0, _ => []
  | _, [] => []
  | fuel + 1, c :: rest =>
    if isPrefixCI "<meta".data (c :: rest) then
      let inner := (c :: rest).drop 5
      let attrs := parseAttrsF inner.length inner
      { name := (attrs.find? (fun a => a.1 = "name".data)).map (fun a => a.2),
        content :=
          (attrs.find? (fun a => a.1 = "content".data)).map (fun a => a.2) } ::
        scanMetasF fuel ((inner.dropWhile (fun c => c ≠ '>')).drop 1)
    else scanMetasF fuel rest

/-- Modelled from the spec: the browser parsing pathway of setMetaCtaLink
(innerHTML on a detached div, querySelectorAll meta, getAttribute), an
instance of the abstract `parse` parameter used for concrete runs. -/
def browserParseMetas (s : List Char) : List MetaTag := scanMetasF s.length s

theorem ctaFold_fst (metas : List MetaTag)
    (init : Option (List Char) × Option (List Char)) :
    (metas.foldl ctaStep init).1 =
      match metas.reverse.find?
          (fun meta => meta.name = some "amp-cta-type".data) with
      | some meta => meta.content
      | none => init.1 := by
  induction metas using List.reverseRecOn with
  | nil => rfl
  | append_singleton l m ih =>
    rw [List.foldl_append]
    by_cases hm : m.name = some "amp-cta-type".data
    · simp [ctaStep, hm, List.find?_cons_of_pos]
    · simp only [List.foldl_cons, List.foldl_nil, List.reverse_append,
        List.reverse_cons, List.reverse_nil, List.nil_append, List.cons_append]
      rw [List.find?_cons_of_neg _ (by simpa using hm)]
      simpa [ctaStep, hm] using ih

theorem ctaFold_snd (metas : List MetaTag)
    (init : Option (List Char) × Option (List Char)) :
    (metas.foldl ctaStep init).2 =
      match metas.reverse.find?
          (fun meta => meta.name = some "amp-cta-url".data) with
      | some meta => meta.content
      | none => init.2 := by
  induction metas using List.reverseRecOn with
  | nil => rfl
  | append_singleton l m ih =>
    rw [List.foldl_append]
    by_cases hm : m.name = some "amp-cta-url".data
    · simp [ctaStep, hm, List.find?_cons_of_pos]
    · simp only [List.foldl_cons, List.foldl_nil, List.reverse_append,
        List.reverse_cons, List.reverse_nil, List.nil_append, List.cons_append]
      rw [List.find?_cons_of_neg _ (by simpa using hm)]
      simpa [ctaStep, hm] using ih

theorem setMetaCtaLink_eq_resolved (parse : List Char → List MetaTag)
    (docStr : List Char) (ctaLink : CtaLinkState) :
    setMetaCtaLink parse docStr ctaLink =
      (let link1 : CtaLinkState :=
        { ctaLink with href := some (jsStringOf (resolvedCtaUrl parse docStr)) }
      match ctaLookup (resolvedCtaType parse docStr) with
      | some label => ({ link1 with textContent := label }, none)
      | none =>
        (link1, some ("Unknown CTA type ".data ++
          jsStringOf (resolvedCtaType parse docStr)))) := by
  unfold setMetaCtaLink resolvedCtaType resolvedCtaUrl
  cases h : metaCtaMatches docStr with
  | nil => simp
  | cons x xs =>
    simp only [List.length_cons, Nat.succ_pos, if_pos, List.isEmpty_cons,
      Bool.false_eq_true, if_neg, Nat.zero_lt_succ]
    rw [ctaFold_fst, ctaFold_snd]
    simp

theorem strReplaceJS_of_firstOcc_none (s pat repl : List Char)
    (h : firstOcc pat s = none) : strReplaceJS s pat repl = s := by
  unfold strReplaceJS
  rw [h]

theorem strReplaceJS_of_firstOcc_some (s pat repl : List Char) (i : Nat)
    (h : firstOcc pat s = some i) (hd : '$' ∉ repl) :
    strReplaceJS s pat repl = s.take i ++ repl ++ s.drop (i + pat.length) := by
  unfold strReplaceJS
  rw [h]
  dsimp only
  rw [expandDollar_of_not_mem_dollar _ _ _ _ _ hd]

/-! Event model of the promise sequencing in part_001. Iframe writes, loads and
selections are observable events; an async body is a task that can emit events,
yield (an await on an already-settled promise defers the continuation to the
back of the microtask queue) and spawn (calling an async function without
awaiting it runs the callee synchronously up to its first await). -/

/-- Observable events of the preview widget. -/
inductive Ev : Type where
  | renderWrappedIframe
  | iframeAttached
  | iframeLoaded
  | writeStory : List Char → Ev
  | storyLoaded
  | adIframeSelected
  | ctaLinkSelected
  | ctaApplied : Option (List Char) → List Char → Ev
  | ctaRaised : List Char → Ev
  | writeAd : List Char → Ev
  | setStoryDocField : List Char → Ev
  | outerResolved
deriving DecidableEq

/-- A task on the microtask queue. -/
inductive P : Type where
  | done
  | act : Ev → P → P
  | yield : P → P
  | spawn : P → P → P

/-- The events a task emits synchronously before suspending, together with the
continuations it defers to the queue, in deferral order. -/
def syncPrefix : P → List Ev × List P
  | .done => ([], [])
  | .act e k => (e :: (syncPrefix k).1, (syncPrefix k).2)
  | .yield k => ([], [k])
  | .spawn c k =>
    ((syncPrefix c).1 ++ (syncPrefix k).1, (syncPrefix c).2 ++ (syncPrefix k).2)

/-- Structural size of a task, used for termination of the scheduler. -/
def Psize : P → Nat
  | .done => 1
  | .act _ k => Psize k + 1
  | .yield k => Psize k + 1
  | .spawn c k => Psize c + Psize k + 1

/-- Total size of a queue of tasks. -/
def Qsize (q : List P) : Nat := (q.map Psize).sum

theorem syncPrefix_size (p : P) : Qsize (syncPrefix p).2 < Psize p := by
  induction p with
  | done => simp [syncPrefix, Qsize, Psize]
  | act e k ih => simpa [syncPrefix, Psize] using Nat.lt_succ_of_lt ih
  | yield k _ => simp [syncPrefix, Qsize, Psize]
  | spawn c k ihc ihk =>
    have : Qsize ((syncPrefix c).2 ++ (syncPrefix k).2) =
        Qsize (syncPrefix c).2 + Qsize (syncPrefix k).2 := by
      simp [Qsize]
    simp only [syncPrefix, Psize, this]
    omega

/-- The single-threaded event loop: run the task at the head of the queue
until it suspends, emitting its synchronous events; enqueue what it deferred;
repeat until the queue is empty. The result is the global event trace. -/
def runQ : List P → List Ev
  | [] => []
  | p :: q => (syncPrefix p).1 ++ runQ (q ++ (syncPrefix p).2)
termination_by q => Qsize q
decreasing_by
  have h := syncPrefix_size p
  simp [Qsize, List.map_append, List.sum_append] at h ⊢
  omega

theorem runQ_nil : runQ [] = [] := by simp [runQ]

theorem runQ_cons (p : P) (q : List P) :
    runQ (p :: q) = (syncPrefix p).1 ++ runQ (q ++ (syncPrefix p).2) := by
  rw [runQ]

/-- No event satisfying q occurs strictly before the first event satisfying p;
in particular, when no p-event occurs, no q-event occurs at all. -/
def firstPrecedes (p q : Ev → Bool) (t : List Ev) : Prop :=
  ((t.takeWhile (fun e => !(p e))).any q) = false

def isStoryLoaded : Ev → Bool
  | .storyLoaded => true
  | _ => false

def isAdIframeSelected : Ev → Bool
  | .adIframeSelected => true
  | _ => false

def isCtaApplied : Ev → Bool
  | .ctaApplied _ _ => true
  | _ => false

def isWriteAd : Ev → Bool
  | .writeAd _ => true
  | _ => false

def isOuterResolved : Ev → Bool
  | .outerResolved => true
  | _ => false

/-- The pageId passed by the constructor and updateInner (source default
page-1). -/
def pageOneId : List Char := "page-1".data

/-- The pageId passed by updateOuter when switching context (part_001
line 200). -/
def coverId : List Char := "cover".data

/-- Source part_001 lines 152-166: the constructor promise chain, in
resolution order. The attached wrapper iframe loads, the patched story
document is written into it, and once that load completes the two awaitSelect
callbacks registered on storyIframe run in order: the nested ad iframe query,
then the CTA link query. -/
def ctorChain (storyDoc : List Char) : P :=
  .yield (.act .iframeAttached
  (.yield (.act .iframeLoaded
  (.yield (.act (.writeStory (patchOuter storyDoc pageOneId))
  (.act .storyLoaded
  (.yield (.act .adIframeSelected
  (.yield (.act .ctaLinkSelected .done))))))))))

/-- Source part_001 lines 143-169: the constructor registers the promise chain
and synchronously renders the wrapped iframe. -/
def ctorProg (storyDoc : List Char) : P :=
  .spawn (ctorChain storyDoc) (.act .renderWrappedIframe .done)

/-- Event trace of a construction. -/
def ctorTrace (storyDoc : List Char) : List Ev := runQ [ctorProg storyDoc]

/-- Source part_001 lines 175-194: body of updateInner in the steady state
where the constructor promises have settled; each await of a settled promise
yields once. The story document (context patch or css patch, per
switchingContext) is written and awaited, the ad iframe re-queried,
setMetaCtaLink run on the awaited CTA link, and the patched ad document
written into the awaited ad iframe; when setMetaCtaLink raises, the async body
aborts before the ad write. -/
def updateInnerP (storyWrite : List Char)
    (ctaRes : CtaLinkState × Option (List Char)) (adDoc : List Char) : P :=
  .yield (.act (.writeStory storyWrite)
  (.yield (.act .storyLoaded
  (.yield (.yield (.act .adIframeSelected
  (.yield (.yield
  (match ctaRes with
   | (st, none) =>
     .act (.ctaApplied st.href st.textContent)
       (.yield (.act (.writeAd adDoc) .done))
   | (_, some msg) => .act (.ctaRaised msg) .done)))))))))

/-- updateInner instantiated as the source does: the story write is the outer
patch when switching context, the css patch otherwise; the CTA result comes
from setMetaCtaLink on the dirty ad document; the ad write is the patched
dirty document. -/
def updateInnerProg (parse : List Char → List MetaTag)
    (storyDoc dirty : List Char) (link : CtaLinkState)
    (switchingContext : Bool) : P :=
  updateInnerP
    (if switchingContext then patchOuter storyDoc pageOneId
     else storyCssPatch storyDoc)
    (setMetaCtaLink parse dirty link) (patch dirty)

/-- Event trace of an updateInner call. -/
def updateInnerTrace (parse : List Char → List MetaTag)
    (storyDoc dirty : List Char) (link : CtaLinkState)
    (switchingContext : Bool) : List Ev :=
  runQ [updateInnerProg parse storyDoc dirty link switchingContext]

/-- Source part_001 lines 203-204: the tail of updateOuter, which re-queries
the ad iframe and then calls updateInner without awaiting it, so the callee is
spawned and updateOuter resolves right after. -/
def updateOuterTail (parse : List Char → List MetaTag)
    (dirty dirtyInner : List Char) (link : CtaLinkState) : P :=
  .yield (.act .adIframeSelected (.yield
    (.spawn (updateInnerProg parse dirty dirtyInner link false)
      (.act .outerResolved .done))))

/-- Source part_001 lines 196-205: updateOuter assigns the story document
field, optionally rewrites and awaits the story (switching context), then runs
the tail. -/
def updateOuterProg (parse : List Char → List MetaTag)
    (dirty dirtyInner : List Char) (link : CtaLinkState)
    (switchingContext : Bool) : P :=
  .act (.setStoryDocField dirty)
    (if switchingContext then
      .yield (.act (.writeStory (patchOuter dirty coverId))
        (.yield (.act .storyLoaded
          (.yield (updateOuterTail parse dirty dirtyInner link)))))
    else updateOuterTail parse dirty dirtyInner link)

/-- Event trace of an updateOuter call. -/
def updateOuterTrace (parse : List Char → List MetaTag)
    (dirty dirtyInner : List Char) (link : CtaLinkState)
    (switchingContext : Bool) : List Ev :=
  runQ [updateOuterProg parse dirty dirtyInner link switchingContext]

/-! Model of the build entry point src/bin/build.js. The bundler and the
minifier are external; their outputs are abstract parameters, and the script
itself is the sequence of steps it performs. -/

/-- An output bundle declaration (build.js lines 37-43). -/
structure Bundle : Type where
  file : List Char
  format : List Char
  name : List Char
deriving DecidableEq

/-- Source build.js lines 37-43: the declared output bundle list, one entry
targeting dist/app.js. -/
def outputBundles : List Bundle :=
  [{ file := "dist/app.js".data, format := "iife".data,
     name := "ampStoryAdPreview".data }]

/-- Observable steps of the build entry point: the single rollup invocation,
a bundle write, and an in-place minify write. -/
inductive BuildEv : Type where
  | rollupBundle
  | writeBundle : List Char → BuildEv
  | minifyWrite : List Char → BuildEv
deriving DecidableEq

/-- Source build.js line 47: map a callback over every declared bundle
(Promise.all over outputBundles). -/
def withAllBundles (cb : Bundle → List BuildEv) : List BuildEv :=
  (outputBundles.map cb).flatten

/-- Source build.js lines 55-59: rollup the input config once, then write
every declared output bundle from the resulting main bundle. -/
def buildSteps : List BuildEv :=
  .rollupBundle :: withAllBundles (fun b => [.writeBundle b.file])

/-- Source build.js lines 61-67: main always awaits build, returns when the
PROD environment flag is unset, and otherwise minifies every bundle in
place. -/
def mainSteps (prod : Bool) : List BuildEv :=
  buildSteps ++
    (if prod then withAllBundles (fun b => [.minifyWrite b.file]) else [])

/-- Filesystem effect of one build step, file contents indexed by path: a
bundle write stores the bundler output, a minify write replaces the stored
content of the file with its minified form, and the rollup invocation itself
writes nothing. -/
def applyBuildEv (bundlerOut : List Char) (minifyFn : List Char → List Char)
    (fs : List Char → List Char) : BuildEv → (List Char → List Char)
  | .rollupBundle => fs
  | .writeBundle f => fun pth => if pth = f then bundlerOut else fs pth
  | .minifyWrite f => fun pth => if pth = f then minifyFn (fs f) else fs pth

/-- Final filesystem after a run of the given steps. -/
def runBuild (bundlerOut : List Char) (minifyFn : List Char → List Char)
    (steps : List BuildEv) (fs0 : List Char → List Char) :
    List Char → List Char :=
  steps.foldl (applyBuildEv bundlerOut minifyFn) fs0

def isMinifyWrite : BuildEv → Bool
  | .minifyWrite _ => true
  | _ => false

def isWriteBundle : BuildEv → Bool
  | .writeBundle _ => true
  | _ => false

/-- A sample story template carrying the sandbox placeholder token, used for
concrete runs. -/
def sampleTemplate : List Char :=
  "<amp-story><iframe sandbox=\x22\x7b\x7b adSandbox \x7d\x7d\x22></iframe></amp-story>".data

/-- A sample ad document carrying both CTA meta tags, used for concrete
runs. -/
def ctaDocW : List Char :=
  ("<html><head></head><meta name=\x22amp-cta-type\x22 content=\x22SHOP\x22>" ++
   "<meta name=\x22amp-cta-url\x22 content=\x22https://shop.example\x22>" ++
   "<body></body></html>").data

/-- A sample ad document whose CTA type is not in the allow-list, used for
concrete runs. -/
def ctaBadDocW : List Char :=
  "<meta name=\x22amp-cta-type\x22 content=\x22BOGUS\x22><body></body>".data

/-- C8: for every run of the build step, exactly one output write is performed
per entry of the declared output-bundle list, whose single declared target is
dist/app.js. -/
theorem c8_one_write_per_declared_bundle :
    buildSteps.filter isWriteBundle =
      outputBundles.map (fun b => BuildEv.writeBundle b.file) ∧
    outputBundles.map (fun b => b.file) = ["dist/app.js".data] := by
  exact ⟨rfl, rfl⟩

/-- C7: the build entry point always performs the bundling step (the rollup
invocation and the declared bundle write are in every run); the
minify-in-place step is performed if and only if the PROD flag is set; and
with PROD unset the output bundle file holds exactly what the bundler wrote
there. -/
theorem c7_minify_iff_prod (bundlerOut : List Char)
    (minifyFn : List Char → List Char) (fs0 : List Char → List Char)
    (prod : Bool) :
    BuildEv.rollupBundle ∈ mainSteps prod ∧
    BuildEv.writeBundle "dist/app.js".data ∈ mainSteps prod ∧
    ((mainSteps prod).any isMinifyWrite = prod) ∧
    runBuild bundlerOut minifyFn (mainSteps false) fs0 "dist/app.js".data =
      bundlerOut := by
  cases prod <;>
    simp [mainSteps, buildSteps, withAllBundles, outputBundles, runBuild,
      applyBuildEv, isMinifyWrite]

/-- C6: the stored story document is the data-template string with the first
occurrence of the sandbox placeholder token replaced by the fixed space-joined
sandbox attribute list; every other character is unchanged, by plain string
replacement. -/
theorem c6_story_template_replacement (template : List Char) (i : Nat)
    (h : firstOcc adSandboxToken template = some i) :
    mkStoryDoc template =
      template.take i ++ defaultIframeSandbox ++
        template.drop (i + adSandboxToken.length) ∧
    defaultIframeSandbox =
      (String.intercalate " "
        ["allow-scripts", "allow-forms", "allow-same-origin", "allow-popups",
         "allow-popups-to-escape-sandbox", "allow-top-navigation"]).data :=
  ⟨strReplaceJS_of_firstOcc_some _ _ _ _ h (by decide), rfl⟩

/-- Concrete run of the C6 theorem on a sample template whose placeholder
token sits at index 28. -/
theorem c6_story_template_replacement_witness :
    mkStoryDoc sampleTemplate =
      sampleTemplate.take 28 ++ defaultIframeSandbox ++
        sampleTemplate.drop (28 + adSandboxToken.length) ∧
    defaultIframeSandbox =
      (String.intercalate " "
        ["allow-scripts", "allow-forms", "allow-same-origin", "allow-popups",
         "allow-popups-to-escape-sandbox", "allow-top-navigation"]).data :=
  c6_story_template_replacement sampleTemplate 28 (by decide)

/-- C2 counterexample: on a document string lacking the head anchor,
addScriptToHead returns the document unchanged rather than raising, and
likewise setBodyAmpStoryVisible on a document with no body tag: the patches
are String.replace calls, which never raise and silently no-op when the
anchor is absent. -/
theorem c2_counterexample :
    addScriptToHead "<html><body></body></html>".data "<script>x</script>".data =
      "<html><body></body></html>".data ∧
    setBodyAmpStoryVisible "<html><head></head></html>".data =
      "<html><head></head></html>".data := by
  exact ⟨rfl, rfl⟩

/-- C2 amended: for every document string lacking the expected anchor, the
patch functions return the string unchanged: nothing raises, and the update
proceeds with the unpatched document. -/
theorem c2_missing_anchor_noop (dh db content : List Char)
    (hh : firstOcc "<head>".data dh = none)
    (hb : findMatchPos bodyTagMatchAt db = none) :
    addScriptToHead dh content = dh ∧ setBodyAmpStoryVisible db = db := by
  constructor
  · exact strReplaceJS_of_firstOcc_none _ _ _ hh
  · unfold setBodyAmpStoryVisible
    rw [hb]

/-- Concrete run of the C2 amended theorem. -/
theorem c2_missing_anchor_noop_witness :
    addScriptToHead "<div></div>".data "X".data = "<div></div>".data ∧
    setBodyAmpStoryVisible "plain text".data = "plain text".data :=
  c2_missing_anchor_noop _ _ _ (by decide) (by decide)

/-- C5 counterexample: the claim fails as stated because JavaScript replacement
strings undergo substitution-pattern expansion: inserting the content
dollar-ampersand after the head anchor duplicates the anchor instead of
inserting the given content verbatim. -/
theorem c5_counterexample :
    addScriptToHead "<head>x".data "$&".data = "<head><head>x".data ∧
    addScriptToHead "<head>x".data "$&".data ≠ "<head>$&x".data := by
  exact ⟨by decide, by decide⟩

/-- C5 amended: for every document string containing the head anchor,
addScriptToHead inserts the given content immediately after the first
occurrence of the anchor with every other character unchanged, provided the
content contains no dollar character (otherwise JavaScript replacement-string
substitution applies); and for every document string with a body tag match,
setBodyAmpStoryVisible inserts the amp-story-visible attribute inside the
first such tag and leaves the rest of the string unchanged. -/
theorem c5_patch_insertion :
    (∀ (doc content : List Char) (i : Nat),
      firstOcc "<head>".data doc = some i → '$' ∉ content →
      addScriptToHead doc content =
        doc.take i ++ "<head>".data ++ content ++
          doc.drop (i + ("<head>".data).length)) ∧
    (∀ (doc : List Char) (i : Nat) (gt : List Char × List Char),
      findMatchPos bodyTagMatchAt doc = some (i, gt) →
      setBodyAmpStoryVisible doc =
        doc.take i ++ ('<' :: gt.1 ++ " amp-story-visible>".data) ++ gt.2) := by
  constructor
  · intro doc content i h hd
    have hd2 : '$' ∉ "<head>".data ++ content := by
      intro hm
      rcases List.mem_append.mp hm with hm1 | hm2
      · exact absurd hm1 (by decide)
      · exact hd hm2
    have := strReplaceJS_of_firstOcc_some doc "<head>".data
      ("<head>".data ++ content) i h hd2
    unfold addScriptToHead
    rw [this]
    simp [List.append_assoc]
  · intro doc i gt h
    unfold setBodyAmpStoryVisible
    rw [h]
    rfl

/-- Concrete run of the C5 amended theorem: head insertion at index 6 of a
sample document, and body-attribute insertion at index 6 of another. -/
theorem c5_patch_insertion_witness :
    addScriptToHead "<html><head></head></html>".data "<script>p</script>".data =
      "<html><head><script>p</script></head></html>".data ∧
    setBodyAmpStoryVisible "<html><body id=b></body></html>".data =
      "<html><body id=b amp-story-visible></body></html>".data := by
  constructor
  · rw [c5_patch_insertion.1 "<html><head></head></html>".data
      "<script>p</script>".data 6 (by decide) (by decide)]
    decide
  · rw [c5_patch_insertion.2 "<html><body id=b></body></html>".data 6
      ("body id=b".data, "</body></html>".data) (by decide)]
    decide

/-- C1: the CTA descriptor applied to the rendered link is resolved from the
ad document: when meta tags match metaCtaRe, the type and url are read from
the parsed tags content attributes (the last tag of each name winning, per
`resolvedCtaType` and `resolvedCtaUrl`), and when no tag matches both default
(type LEARN_MORE, url amp.dev); setMetaCtaLink then sets the link href to the
resolved url and its text content to the allow-list label of the resolved
type. -/
theorem c1_cta_resolution (parse : List Char → List MetaTag)
    (docStr : List Char) (ctaLink : CtaLinkState) (label : List Char)
    (h : ctaLookup (resolvedCtaType parse docStr) = some label) :
    setMetaCtaLink parse docStr ctaLink =
      ({ href := some (jsStringOf (resolvedCtaUrl parse docStr)),
         textContent := label }, none) ∧
    (metaCtaMatches docStr = [] →
      resolvedCtaType parse docStr = some defaultCtaType ∧
      resolvedCtaUrl parse docStr = some defaultCtaUrl) := by
  constructor
  · rw [setMetaCtaLink_eq_resolved]
    simp [h]
  · intro hm
    simp [resolvedCtaType, resolvedCtaUrl, hm]

/-- Concrete run of the C1 theorem on a sample ad document with two CTA meta
tags resolved through the browser-parser model. -/
theorem c1_cta_resolution_witness :
    setMetaCtaLink browserParseMetas ctaDocW ⟨none, []⟩ =
      ({ href := some (jsStringOf (resolvedCtaUrl browserParseMetas ctaDocW)),
         textContent := "Shop".data }, none) ∧
    (metaCtaMatches ctaDocW = [] →
      resolvedCtaType browserParseMetas ctaDocW = some defaultCtaType ∧
      resolvedCtaUrl browserParseMetas ctaDocW = some defaultCtaUrl) :=
  c1_cta_resolution browserParseMetas ctaDocW ⟨none, []⟩ "Shop".data (by decide)

/-- C4: setMetaCtaLink raises the Unknown CTA type assertion if and only if
the resolved CTA type (extracted or defaulted) is not a key of the fixed
CTA_TYPES allow-list; with a known resolved type the operation completes
without raising. -/
theorem c4_raise_iff_unknown_type (parse : List Char → List MetaTag)
    (docStr : List Char) (ctaLink : CtaLinkState) :
    (setMetaCtaLink parse docStr ctaLink).2 ≠ none ↔
      ctaLookup (resolvedCtaType parse docStr) = none := by
  rw [setMetaCtaLink_eq_resolved]
  cases h : ctaLookup (resolvedCtaType parse docStr) <;> simp

/-- C10: when setMetaCtaLink raises on an unknown CTA type, the link href has
already been overwritten with the resolved url, while the text content is
still untouched: the operation is not atomic on error. -/
theorem c10_href_mutated_before_raise (parse : List Char → List MetaTag)
    (docStr : List Char) (ctaLink : CtaLinkState) (msg : List Char)
    (h : (setMetaCtaLink parse docStr ctaLink).2 = some msg) :
    (setMetaCtaLink parse docStr ctaLink).1.href =
      some (jsStringOf (resolvedCtaUrl parse docStr)) ∧
    (setMetaCtaLink parse docStr ctaLink).1.textContent =
      ctaLink.textContent := by
  rw [setMetaCtaLink_eq_resolved] at h ⊢
  cases hl : ctaLookup (resolvedCtaType parse docStr) with
  | none => simp [hl]
  | some label =>
    rw [hl] at h
    simp at h

/-- Concrete run of the C10 theorem: a sample document whose CTA type BOGUS is
unknown makes setMetaCtaLink raise, yet the href of the link (initially null)
has been set to the resolved default url. -/
theorem c10_href_mutated_before_raise_witness :
    (setMetaCtaLink browserParseMetas ctaBadDocW ⟨none, []⟩).1.href =
      some (jsStringOf (resolvedCtaUrl browserParseMetas ctaBadDocW)) ∧
    (setMetaCtaLink browserParseMetas ctaBadDocW ⟨none, []⟩).1.textContent =
      [] :=
  c10_href_mutated_before_raise browserParseMetas ctaBadDocW ⟨none, []⟩
    ("Unknown CTA type BOGUS".data) (by decide)

/-- C3: in every execution, the outer story document finishes loading before
the nested ad iframe is queried, both in the constructor chain and in
updateInner; and the CTA metadata is resolved and applied to the rendered
link before the patched ad document is written into the nested ad iframe. -/
theorem c3_load_before_select_cta_before_write
    (parse : List Char → List MetaTag) (storyDoc dirty : List Char)
    (link : CtaLinkState) (switchingContext : Bool) :
    firstPrecedes isStoryLoaded isAdIframeSelected (ctorTrace storyDoc) ∧
    firstPrecedes isStoryLoaded isAdIframeSelected
      (updateInnerTrace parse storyDoc dirty link switchingContext) ∧
    firstPrecedes isCtaApplied isWriteAd
      (updateInnerTrace parse storyDoc dirty link switchingContext) := by
  rcases hres : setMetaCtaLink parse dirty link with ⟨st, msg⟩
  refine ⟨?_, ?_, ?_⟩ <;>
  · cases msg <;>
      simp [ctorTrace, ctorProg, ctorChain, updateInnerTrace, updateInnerProg,
        updateInnerP, hres, runQ_cons, runQ_nil, syncPrefix, firstPrecedes,
        isStoryLoaded, isAdIframeSelected, isCtaApplied, isWriteAd]

/-- C9: updateOuter resolves without awaiting the spawned inner update: its
resolution event always occurs, and neither the ad-document write nor the CTA
application ever occurs before it in the trace, so resolution of updateOuter
does not mean the preview update has completed. -/
theorem c9_outer_resolves_before_inner_work
    (parse : List Char → List MetaTag) (dirty dirtyInner : List Char)
    (link : CtaLinkState) (switchingContext : Bool) :
    ((updateOuterTrace parse dirty dirtyInner link switchingContext).any
      isOuterResolved = true) ∧
    firstPrecedes isOuterResolved isWriteAd
      (updateOuterTrace parse dirty dirtyInner link switchingContext) ∧
    firstPrecedes isOuterResolved isCtaApplied
      (updateOuterTrace parse dirty dirtyInner link switchingContext) := by
  rcases hres : setMetaCtaLink parse dirtyInner link with ⟨st, msg⟩
  refine ⟨?_, ?_, ?_⟩ <;>
  · cases switchingContext <;> cases msg <;>
      simp [updateOuterTrace, updateOuterProg, updateOuterTail,
        updateInnerProg, updateInnerP, hres, runQ_cons, runQ_nil, syncPrefix,
        firstPrecedes, isOuterResolved, isCtaApplied, isWriteAd]

end AmpPreview
